import Mathlib

/-!
Shallow embedding of the asynchronous TCP client in
`src/sources/network/tcp_client.cpp` (namespace `cpp_redis::network`,
class `tcp_client`), together with a small-step system model of the
client interacting with the I/O reactor, and theorems settling the
claims about it.

Bytes are modelled as `Nat`; buffers (`std::vector<char>`) as `List Nat`.
The caller-supplied receive and disconnection handlers are opaque caller
code: the embedding records their *presence* (`std::function` null test)
as a `Bool` field, and takes the receive handler's boolean return value
as an oracle argument at each read completion.
-/

namespace CppRedis

/-- Connection-phase errors thrown by `tcp_client::connect`
(`redis_error` with the respective message in the source). -/
inductive ConnErr where
  | AlreadyConnected
  | SocketCreationFailed
  | HostResolutionFailed
  | ConnectFailed
deriving DecidableEq, Repr

/-- Error thrown by `tcp_client::send` (`redis_error("Not connected")`). -/
inductive SendErr where
  | NotConnected
deriving DecidableEq, Repr

/-- Error raised inside the read-completion callback: invoking an empty
`std::function` throws `std::bad_function_call`. -/
inductive ReadErr where
  | BadFunctionCall
deriving DecidableEq, Repr

/-- The state of a `tcp_client` object: the fields of the C++ class.
`m_fd` is the socket descriptor (`-1` when absent); `m_receive_handler`
and `m_disconnection_handler` record whether the corresponding
`std::function` member is non-null. -/
structure Client where
  m_fd : Int
  m_is_connected : Bool
  m_receive_handler : Bool
  m_disconnection_handler : Bool
  m_write_buffer : List Nat
  m_read_buffer : List Nat
deriving DecidableEq, Repr

/-- The state of a freshly constructed `tcp_client`: descriptor `-1`,
disconnected, both handlers null, empty buffers (constructor, lines 19-27). -/
def init_client : Client :=
  { m_fd := -1
    m_is_connected := false
    m_receive_handler := false
    m_disconnection_handler := false
    m_write_buffer := []
    m_read_buffer := [] }

/-- Embeds `tcp_client::clear_buffer` (lines 205-210): under the write-buffer
lock, clear both the write buffer and the read buffer. -/
def clear_buffer (c : Client) : Client :=
  { c with m_write_buffer := [], m_read_buffer := [] }

/-- Embeds `tcp_client::reset_state` (lines 193-203): set `m_is_connected` to
false; if the descriptor is present, `close` it and store the absent
sentinel `-1`; then clear both buffers. -/
def reset_state (c : Client) : Client :=
  let c1 := { c with m_is_connected := false }
  let c2 := if c1.m_fd ≠ -1 then { c1 with m_fd := -1 } else c1
  clear_buffer c2

/-- Embeds `tcp_client::disconnect` (lines 85-98): a no-op if already
disconnected; otherwise `untrack` the descriptor from the io_service and
run `reset_state`. The returned `Bool` records whether `untrack` was
called (i.e. whether a teardown actually happened). -/
def tcp_disconnect (c : Client) : Client × Bool :=
  if c.m_is_connected then (reset_state c, true) else (c, false)

/-- Result of one `tcp_client::connect` call. `err` is the thrown error,
if any; `client` is the object state when the call returns or throws;
`tracked` records whether the descriptor was registered with the
io_service; `readStarted` records whether `async_read` was issued. -/
structure ConnectOutcome where
  err : Option ConnErr
  client : Client
  tracked : Bool
  readStarted : Bool
deriving DecidableEq, Repr

/-- Embeds `tcp_client::connect` (lines 34-83). The three syscall outcomes are
oracle parameters: `socketRet` is the return value of `socket(2)` (a
non-negative descriptor, or `-1` on failure), `resolveOk` whether
`gethostbyname` succeeded, `connectOk` whether the `connect(2)` syscall
succeeded. `rh` and `dh` are the non-nullness of the caller's receive
and disconnection handlers. Note: the source assigns `m_fd` before
checking it, and throws on resolution/connect failure without closing
the descriptor it just created. -/
def tcp_connect (c : Client) (rh dh : Bool) (socketRet : Int)
    (resolveOk connectOk : Bool) : ConnectOutcome :=
  if c.m_is_connected then
    { err := some ConnErr.AlreadyConnected, client := c
      tracked := false, readStarted := false }
  else
    let c1 := { c with m_fd := socketRet }
    if socketRet < 0 then
      { err := some ConnErr.SocketCreationFailed, client := c1
        tracked := false, readStarted := false }
    else if ¬ resolveOk then
      { err := some ConnErr.HostResolutionFailed, client := c1
        tracked := false, readStarted := false }
    else if ¬ connectOk then
      { err := some ConnErr.ConnectFailed, client := c1
        tracked := false, readStarted := false }
    else
      { err := none
        client := { c1 with
          m_disconnection_handler := dh
          m_receive_handler := rh
          m_is_connected := true }
        tracked := true
        readStarted := true }

/-- Result of one `tcp_client::send` call: the thrown error (if any),
the resulting object state, and the buffer contents submitted to the
io_service via `async_write` when this call started a drain. -/
structure SendOutcome where
  err : Option SendErr
  client : Client
  submitted : Option (List Nat)
deriving DecidableEq, Repr

/-- Embeds `tcp_client::send` (lines 105-134): throw `NotConnected` when
disconnected; silently return on an empty payload; otherwise, under the
write-buffer lock, remember whether bytes were already queued, append
the payload, and start `async_write` (submitting the entire current
buffer with its current size) only if the queue was previously empty. -/
def tcp_send (c : Client) (buffer : List Nat) : SendOutcome :=
  if ¬ c.m_is_connected then
    { err := some SendErr.NotConnected, client := c, submitted := none }
  else if buffer.length = 0 then
    { err := none, client := c, submitted := none }
  else
    let bytes_in_buffer := decide (c.m_write_buffer.length > 0)
    let c1 := { c with m_write_buffer := c.m_write_buffer ++ buffer }
    if bytes_in_buffer then
      { err := none, client := c1, submitted := none }
    else
      { err := none, client := c1, submitted := some c1.m_write_buffer }

/-- Embeds `tcp_client::is_connected` (lines 176-179). -/
def is_connected (c : Client) : Bool :=
  c.m_is_connected

/-- The completion callback of `tcp_client::async_write` (lines 164-173):
under the write-buffer lock, erase the first `length` bytes from the
head of the write buffer; if still connected and the buffer is
non-empty, start another `async_write` (returned as the new submission,
again the entire current buffer). -/
def async_write_complete (c : Client) (length : Nat) :
    Client × Option (List Nat) :=
  let c1 := { c with m_write_buffer := c.m_write_buffer.drop length }
  if c1.m_is_connected ∧ c1.m_write_buffer ≠ [] then
    (c1, some c1.m_write_buffer)
  else
    (c1, none)

/-- Result of one read-completion callback: the resulting client state,
whether the receive-handler call expression was evaluated and with which
byte sequence, how many times `disconnect()` was called, whether the
disconnection handler was invoked on this path, and whether another
`async_read` was issued. -/
structure ReadOutcome where
  client : Client
  handlerCalled : Bool
  handlerArg : List Nat
  disconnectCalls : Nat
  dhInvoked : Bool
  readAgain : Bool
deriving DecidableEq, Repr

/-- The completion callback of `tcp_client::async_read` (lines 141-157).
In the source, `if (m_receive_handler)` guards only the following log
statement; the call `m_receive_handler(*this, {begin, begin+length})` is
evaluated unconditionally, so when the handler is null the callback
throws `std::bad_function_call`. When the handler is present, `hres` is
its boolean return value: on `false` the client calls `disconnect()` and
returns; on `true` it clears the read buffer and, if still connected,
issues another `async_read`. -/
def async_read_complete (c : Client) (length : Nat) (hres : Bool) :
    Except ReadErr ReadOutcome :=
  if c.m_receive_handler then
    if hres = false then
      Except.ok
        { client := (tcp_disconnect c).1
          handlerCalled := true
          handlerArg := c.m_read_buffer.take length
          disconnectCalls := 1
          dhInvoked := false
          readAgain := false }
    else
      let c1 := { c with m_read_buffer := [] }
      Except.ok
        { client := c1
          handlerCalled := true
          handlerArg := c.m_read_buffer.take length
          disconnectCalls := 0
          dhInvoked := false
          readAgain := c1.m_is_connected }
  else
    Except.error ReadErr.BadFunctionCall

/-- Embeds `tcp_client::io_service_disconnection_handler` (lines 181-191): run
`reset_state`, then, if the caller's disconnection handler is non-null,
invoke it with `*this`. The second component records the client state
passed to the handler (`none` when the handler was not invoked). -/
def io_service_disconnection_handler (c : Client) :
    Client × Option Client :=
  let c1 := reset_state c
  if c1.m_disconnection_handler then (c1, some c1) else (c1, none)

/-- An atomic step of the client system: a caller-issued `connect` (with
its syscall oracles), a caller-issued `send`, a caller-issued
`disconnect`, a write-completion callback delivered by the reactor with
`len` bytes acknowledged, or the reactor invoking the registered
disconnection callback. -/
inductive Ev where
  | connect (rh dh : Bool) (socketRet : Int) (resolveOk connectOk : Bool)
  | send (b : List Nat)
  | disconnect
  | writeComplete (len : Nat)
  | reactorDisconnect
deriving DecidableEq, Repr

/-- The client together with its interface to the I/O reactor:
`pendingWrites` are the outstanding (submitted, not yet completed)
`async_write` operations, each recorded as the buffer contents it
submitted; `subs` is the log of all `async_write` submissions in order;
`sent` is the log of all payloads accepted by `send` (connected,
non-empty) in order. -/
structure Sys where
  client : Client
  pendingWrites : List (List Nat)
  subs : List (List Nat)
  sent : List (List Nat)
deriving DecidableEq, Repr

/-- The system of a freshly constructed client: no outstanding
operations, empty logs. -/
def init_sys : Sys :=
  { client := init_client, pendingWrites := [], subs := [], sent := [] }

/-- Modelled from the spec: the reactor side of one atomic step. The
io_service implementation is not part of the given sources; per the
spec's reactor contract, `async_write` registers a one-shot write
operation whose completion acknowledges at most the submitted length,
`untrack` makes already-issued operations of the descriptor no-ops (so a
local `disconnect` removes the outstanding operations), a completion is
delivered only while an operation is outstanding, and when the reactor
itself detects a disconnection it stops the descriptor's operations and
invokes the registered failure callback. The client side of each step is
the corresponding `tcp_client` member function above. -/
def step (s : Sys) : Ev → Sys
  | Ev.connect rh dh socketRet resolveOk connectOk =>
      let o := tcp_connect s.client rh dh socketRet resolveOk connectOk
      { s with client := o.client }
  | Ev.send b =>
      let o := tcp_send s.client b
      { s with
        client := o.client
        pendingWrites := s.pendingWrites ++ (o.submitted.map fun x => [x]).getD []
        subs := s.subs ++ (o.submitted.map fun x => [x]).getD []
        sent := s.sent ++ (if o.err = none ∧ b ≠ [] then [b] else []) }
  | Ev.disconnect =>
      let o := tcp_disconnect s.client
      { s with
        client := o.1
        pendingWrites := if o.2 then [] else s.pendingWrites }
  | Ev.writeComplete len =>
      match s.pendingWrites with
      | [] => s
      | sub :: rest =>
          if len ≤ sub.length then
            let o := async_write_complete s.client len
            { s with
              client := o.1
              pendingWrites := rest ++ (o.2.map fun x => [x]).getD []
              subs := s.subs ++ (o.2.map fun x => [x]).getD [] }
          else s
  | Ev.reactorDisconnect =>
      if s.client.m_is_connected then
        let o := io_service_disconnection_handler s.client
        { s with client := o.1, pendingWrites := [] }
      else s

/-- Run a sequence of atomic steps from a given system state. -/
def run (s : Sys) : List Ev → Sys
  | [] => s
  | e :: r => run (step s e) r

/-- The system state reached from a freshly constructed client by a
sequence of atomic steps. -/
def sys_after (evs : List Ev) : Sys :=
  run init_sys evs

/-- A connected client with both handlers registered and empty buffers:
the state right after a successful `connect`. -/
def demo_client : Client :=
  { m_fd := 3
    m_is_connected := true
    m_receive_handler := true
    m_disconnection_handler := true
    m_write_buffer := []
    m_read_buffer := [] }

/-- The payloads of the `send` events of a trace, in order. -/
def payloads : List Ev → List (List Nat)
  | [] => []
  | Ev.send b :: r => b :: payloads r
  | Ev.connect _ _ _ _ _ :: r => payloads r
  | Ev.disconnect :: r => payloads r
  | Ev.writeComplete _ :: r => payloads r
  | Ev.reactorDisconnect :: r => payloads r

/-- A write-phase trace: only `send` events with non-empty payloads and
write completions, where each completion acknowledges exactly the full
length of the oldest outstanding submission. -/
def sendRunB : Sys → List Ev → Bool
  | _, [] => true
  | s, Ev.send b :: r => !b.isEmpty && sendRunB (step s (Ev.send b)) r
  | s, Ev.writeComplete len :: r =>
      (match s.pendingWrites with
       | sub :: _ => len == sub.length
       | [] => false)
      && sendRunB (step s (Ev.writeComplete len)) r
  | _, Ev.connect _ _ _ _ _ :: _ => false
  | _, Ev.disconnect :: _ => false
  | _, Ev.reactorDisconnect :: _ => false

/-- Write-queue invariant tying the outstanding submissions, the
submission log and the accepted-send log together: with no drain in
flight the queue is empty and the submitted bytes are exactly the sent
bytes; with one drain in flight, its (non-empty) submission is a prefix
of the queue and the submitted bytes plus the not-yet-submitted queue
tail are exactly the sent bytes. -/
def WInv (s : Sys) : Prop :=
  match s.pendingWrites with
  | [] => s.client.m_write_buffer = [] ∧ s.subs.flatten = s.sent.flatten
  | [p] => p ≠ [] ∧ ∃ t, s.client.m_write_buffer = p ++ t
      ∧ s.subs.flatten ++ t = s.sent.flatten
  | _ :: _ :: _ => False

/-- Single-flight invariant of the system: exactly one drain is
outstanding when connected with a non-empty queue and zero otherwise,
and a disconnected client has empty buffers. -/
def SysInv (s : Sys) : Prop :=
  s.pendingWrites.length =
    (if s.client.m_is_connected = true ∧ s.client.m_write_buffer ≠ []
     then 1 else 0)
  ∧ (s.client.m_is_connected = false →
      s.client.m_write_buffer = [] ∧ s.client.m_read_buffer = [])

/-- Whether an event is a `connect` call whose syscall oracles all
succeed (so that, issued on a disconnected client, it reconnects it). -/
def succConnectEv : Ev → Bool
  | Ev.connect _ _ socketRet resolveOk connectOk =>
      decide (0 ≤ socketRet) && resolveOk && connectOk
  | Ev.send _ => false
  | Ev.disconnect => false
  | Ev.writeComplete _ => false
  | Ev.reactorDisconnect => false

/-- Whether a trace contains no `connect` call that would succeed. -/
def noSuccConnect (evs : List Ev) : Bool :=
  evs.all fun e => !succConnectEv e

/-- Lemma: `reset_state` touches only the connection flag, the descriptor and
the buffers: both handler fields are left unchanged. -/
lemma reset_state_handlers (c : Client) :
    (reset_state c).m_receive_handler = c.m_receive_handler
    ∧ (reset_state c).m_disconnection_handler = c.m_disconnection_handler := by
  unfold reset_state clear_buffer
  by_cases h : c.m_fd = -1 <;> simp [h]

/-- After `reset_state` the client is disconnected with descriptor `-1`
and empty buffers. -/
lemma reset_state_fields (c : Client) :
    (reset_state c).m_is_connected = false
    ∧ (reset_state c).m_fd = -1
    ∧ (reset_state c).m_write_buffer = []
    ∧ (reset_state c).m_read_buffer = [] := by
  unfold reset_state clear_buffer
  by_cases h : c.m_fd = -1 <;> simp [h]

/-- The reactor disconnection callback always leaves the client in the
`reset_state` state, whether or not the handler is then invoked. -/
lemma io_service_disconnection_handler_fst (c : Client) :
    (io_service_disconnection_handler c).1 = reset_state c := by
  unfold io_service_disconnection_handler
  by_cases h : (reset_state c).m_disconnection_handler <;> simp [h]

/-- Lemma: `disconnect` on a connected client untracks and resets. -/
lemma tcp_disconnect_connected (c : Client) (h : c.m_is_connected = true) :
    tcp_disconnect c = (reset_state c, true) := by
  simp [tcp_disconnect, h]

/-- Lemma: `disconnect` on a disconnected client is a no-op. -/
lemma tcp_disconnect_not_connected (c : Client) (h : c.m_is_connected = false) :
    tcp_disconnect c = (c, false) := by
  simp [tcp_disconnect, h]

/-- A `connect` call never touches the write or read buffers. -/
lemma tcp_connect_buffers (c : Client) (rh dh : Bool) (sr : Int)
    (ro co : Bool) :
    (tcp_connect c rh dh sr ro co).client.m_write_buffer = c.m_write_buffer
    ∧ (tcp_connect c rh dh sr ro co).client.m_read_buffer = c.m_read_buffer := by
  unfold tcp_connect
  by_cases hc : c.m_is_connected <;> simp [hc]
  by_cases h1 : sr < 0 <;> simp [h1]
  by_cases h2 : ro <;> simp [h2]
  by_cases h3 : co <;> simp [h3]

/-- The initial system satisfies the single-flight invariant. -/
lemma sysInv_init : SysInv init_sys := by
  constructor <;> simp [SysInv, init_sys, init_client]

/-- Every atomic step preserves the single-flight invariant. -/
lemma sysInv_step (s : Sys) (e : Ev) (h : SysInv s) : SysInv (step s e) := by
  obtain ⟨h1, h2⟩ := h
  cases e with
  | connect rh dh sr ro co =>
      by_cases hc : s.client.m_is_connected
      · have hs : step s (Ev.connect rh dh sr ro co) = s := by
          simp [step, tcp_connect, hc]
        rw [hs]
        exact ⟨h1, h2⟩
      · obtain ⟨hw, hr⟩ := h2 (by simpa using hc)
        have hb := tcp_connect_buffers s.client rh dh sr ro co
        constructor
        · show (step s (Ev.connect rh dh sr ro co)).pendingWrites.length = _
          simp only [step]
          rw [h1]
          simp [hc, hb.1, hw]
        · intro _
          simp only [step]
          exact ⟨by rw [hb.1, hw], by rw [hb.2, hr]⟩
  | send b =>
      by_cases hc : s.client.m_is_connected
      · by_cases hb : b.length = 0
        · have hbe : b = [] := List.length_eq_zero.mp hb
          have hs : step s (Ev.send b) = s := by
            simp [step, tcp_send, hc, hb, hbe]
          rw [hs]
          exact ⟨h1, h2⟩
        · have hbne : b ≠ [] := fun hbe => hb (by simp [hbe])
          by_cases hw : s.client.m_write_buffer = []
          · have hp0 : s.pendingWrites = [] := by
              apply List.length_eq_zero.mp
              rw [h1]
              simp [hw]
            constructor
            · simp [step, tcp_send, hc, hb, hw, hp0, hbne]
            · intro hf
              simp [step, tcp_send, hc, hb, hw] at hf
          · have hlen : 0 < s.client.m_write_buffer.length := by
              cases hq : s.client.m_write_buffer with
              | nil => exact absurd hq hw
              | cons x xs => simp [hq]
            constructor
            · simp [step, tcp_send, hc, hb, hlen]
              rw [h1]
              simp [hc, hw]
            · intro hf
              simp [step, tcp_send, hc, hb, hlen] at hf
      · have hcf : s.client.m_is_connected = false := by simpa using hc
        have hs : step s (Ev.send b) = s := by
          simp [step, tcp_send, hcf]
        rw [hs]
        exact ⟨h1, h2⟩
  | disconnect =>
      by_cases hc : s.client.m_is_connected
      · constructor
        · simp [step, tcp_disconnect_connected s.client hc, reset_state_fields]
        · intro _
          simp [step, tcp_disconnect_connected s.client hc]
          exact ⟨(reset_state_fields s.client).2.2.1,
            (reset_state_fields s.client).2.2.2⟩
      · have hcf : s.client.m_is_connected = false := by simpa using hc
        have hs : step s Ev.disconnect = s := by
          simp [step, tcp_disconnect_not_connected s.client hcf]
        rw [hs]
        exact ⟨h1, h2⟩
  | writeComplete len =>
      cases hp : s.pendingWrites with
      | nil =>
          have hs : step s (Ev.writeComplete len) = s := by
            simp [step, hp]
          rw [hs]
          exact ⟨h1, h2⟩
      | cons sub rest =>
          by_cases hl : len ≤ sub.length
          · rw [hp] at h1
            have hcond : s.client.m_is_connected = true
                ∧ s.client.m_write_buffer ≠ [] := by
              by_contra hcon
              simp [hcon] at h1
            have hrest : rest = [] := by
              simp [hcond.1, hcond.2] at h1
              simpa using h1
            by_cases hres : s.client.m_write_buffer.drop len = []
            · constructor
              · simp [step, hp, hl, async_write_complete, hres, hrest, hcond.1]
              · intro hf
                simp [step, hp, hl, async_write_complete, hres, hcond.1] at hf
            · constructor
              · simp [step, hp, hl, async_write_complete, hres, hrest, hcond.1]
              · intro hf
                simp [step, hp, hl, async_write_complete, hres, hcond.1] at hf
          · have hs : step s (Ev.writeComplete len) = s := by
              simp [step, hp, hl]
            rw [hs]
            exact ⟨h1, h2⟩
  | reactorDisconnect =>
      by_cases hc : s.client.m_is_connected
      · constructor
        · simp [step, hc, io_service_disconnection_handler_fst,
            reset_state_fields]
        · intro _
          simp [step, hc, io_service_disconnection_handler_fst]
          exact ⟨(reset_state_fields s.client).2.2.1,
            (reset_state_fields s.client).2.2.2⟩
      · have hs : step s Ev.reactorDisconnect = s := by
          simp [step, hc]
        rw [hs]
        exact ⟨h1, h2⟩

/-- The single-flight invariant holds after any run. -/
lemma sysInv_run (s : Sys) (evs : List Ev) (h : SysInv s) :
    SysInv (run s evs) := by
  induction evs generalizing s with
  | nil => exact h
  | cons e r ih => exact ih (step s e) (sysInv_step s e h)

/-- C2: in every state reachable by any interleaving of connect, send,
disconnect, write-completion callbacks and reactor disconnection
callbacks, exactly one drain (`async_write`) operation is outstanding
when the client is Connected with a non-empty write queue, and zero
drain operations are outstanding when the queue is empty or the client
is Disconnected. -/
theorem drain_single_flight (evs : List Ev) :
    (sys_after evs).pendingWrites.length =
      if (sys_after evs).client.m_is_connected = true
          ∧ (sys_after evs).client.m_write_buffer ≠ []
      then 1 else 0 :=
  (sysInv_run init_sys evs sysInv_init).1

/-- A step that is not a successful `connect` keeps a quiescent
disconnected system disconnected and quiescent. -/
lemma disconnected_step (s : Sys) (e : Ev)
    (h1 : s.client.m_is_connected = false) (h2 : s.pendingWrites = [])
    (h3 : succConnectEv e = false) :
    (step s e).client.m_is_connected = false
    ∧ (step s e).pendingWrites = [] := by
  cases e with
  | connect rh dh sr ro co =>
      constructor
      · simp only [step]
        unfold tcp_connect
        simp only [h1, Bool.false_eq_true, if_false]
        simp only [succConnectEv, Bool.and_eq_false_iff, decide_eq_false_iff_not,
          not_le] at h3
        by_cases hs : sr < 0
        · simp [hs]
        · rcases h3 with h3 | h3
          · rcases h3 with h3 | h3
            · omega
            · simp [hs, h3]
          · by_cases hr : ro
            · simp [hs, hr, h3]
            · simp [hs, hr]
      · simpa [step] using h2
  | send b =>
      have hs : step s (Ev.send b) = s := by
        simp [step, tcp_send, h1]
      rw [hs]
      exact ⟨h1, h2⟩
  | disconnect =>
      have hs : step s Ev.disconnect = s := by
        simp [step, tcp_disconnect_not_connected s.client h1]
      rw [hs]
      exact ⟨h1, h2⟩
  | writeComplete len =>
      have hs : step s (Ev.writeComplete len) = s := by
        simp [step, h2]
      rw [hs]
      exact ⟨h1, h2⟩
  | reactorDisconnect =>
      have hs : step s Ev.reactorDisconnect = s := by
        simp [step, h1]
      rw [hs]
      exact ⟨h1, h2⟩

/-- A trace without a successful `connect` keeps a quiescent
disconnected system disconnected and quiescent. -/
lemma disconnected_run (evs : List Ev) : ∀ s : Sys,
    s.client.m_is_connected = false → s.pendingWrites = [] →
    noSuccConnect evs = true →
    (run s evs).client.m_is_connected = false
    ∧ (run s evs).pendingWrites = [] := by
  induction evs with
  | nil => exact fun s h1 h2 _ => ⟨h1, h2⟩
  | cons e r ih =>
      intro s h1 h2 h3
      simp only [noSuccConnect, List.all_cons, Bool.and_eq_true,
        Bool.not_eq_true'] at h3
      obtain ⟨he, hr⟩ := h3
      obtain ⟨g1, g2⟩ := disconnected_step s e h1 h2 he
      exact ih (step s e) g1 g2 (by simpa [noSuccConnect] using hr)

/-- A non-empty `send` on a connected client preserves the write-queue
invariant, keeps the client connected, and logs its payload. -/
lemma winv_send (s : Sys) (b : List Nat) (hb : b ≠ [])
    (hc : s.client.m_is_connected = true) (h : WInv s) :
    WInv (step s (Ev.send b))
    ∧ (step s (Ev.send b)).client.m_is_connected = true
    ∧ (step s (Ev.send b)).sent = s.sent ++ [b] := by
  have hbl : ¬ b.length = 0 := fun h0 => hb (List.length_eq_zero.mp h0)
  cases hp : s.pendingWrites with
  | nil =>
      have h' : s.client.m_write_buffer = []
          ∧ s.subs.flatten = s.sent.flatten := by
        simpa only [WInv, hp] using h
      obtain ⟨hw, hflat⟩ := h'
      have hs : step s (Ev.send b) =
          { client := { s.client with m_write_buffer := b }
            pendingWrites := s.pendingWrites ++ [b]
            subs := s.subs ++ [b]
            sent := s.sent ++ [b] } := by
        simp [step, tcp_send, hc, hbl, hw, hb]
      rw [hs]
      refine ⟨?_, hc, rfl⟩
      simp only [WInv, hp, List.nil_append]
      exact ⟨hb, [], by simp, by simp [hflat]⟩
  | cons p rest =>
      cases rest with
      | cons q rest2 => exact absurd h (by simp only [WInv, hp]; exact id)
      | nil =>
          have h' : p ≠ [] ∧ ∃ t, s.client.m_write_buffer = p ++ t
              ∧ s.subs.flatten ++ t = s.sent.flatten := by
            simpa only [WInv, hp] using h
          obtain ⟨hpne, t, hbuf, hflat⟩ := h'
          have hlen : 0 < s.client.m_write_buffer.length := by
            rw [hbuf]
            cases hq : p with
            | nil => exact absurd hq hpne
            | cons x xs => simp [hq]
          have hs : step s (Ev.send b) =
              { client :=
                  { s.client with
                    m_write_buffer := s.client.m_write_buffer ++ b }
                pendingWrites := s.pendingWrites
                subs := s.subs
                sent := s.sent ++ [b] } := by
            simp [step, tcp_send, hc, hbl, hlen, hb]
          rw [hs]
          refine ⟨?_, hc, rfl⟩
          simp only [WInv, hp]
          refine ⟨hpne, t ++ b, ?_, ?_⟩
          · rw [hbuf, List.append_assoc]
          · rw [← List.append_assoc, hflat]
            simp

/-- A full-length write completion preserves the write-queue invariant,
keeps the client connected, and does not change the sent log. -/
lemma winv_complete (s : Sys) (len : Nat)
    (hc : s.client.m_is_connected = true)
    (hpend : ∃ sub rest, s.pendingWrites = sub :: rest ∧ len = sub.length)
    (h : WInv s) :
    WInv (step s (Ev.writeComplete len))
    ∧ (step s (Ev.writeComplete len)).client.m_is_connected = true
    ∧ (step s (Ev.writeComplete len)).sent = s.sent := by
  obtain ⟨sub, rest, hp, hlen⟩ := hpend
  cases rest with
  | cons q rest2 => exact absurd h (by simp only [WInv, hp]; exact id)
  | nil =>
      have h' : sub ≠ [] ∧ ∃ t, s.client.m_write_buffer = sub ++ t
          ∧ s.subs.flatten ++ t = s.sent.flatten := by
        simpa only [WInv, hp] using h
      obtain ⟨hsubne, t, hbuf, hflat⟩ := h'
      by_cases ht : t = []
      · have hs : step s (Ev.writeComplete len) =
            { client := { s.client with m_write_buffer := [] }
              pendingWrites := []
              subs := s.subs
              sent := s.sent } := by
          simp [step, hp, hlen, async_write_complete, hbuf,
            List.drop_left, ht]
        rw [hs]
        refine ⟨?_, hc, rfl⟩
        simp only [WInv]
        refine ⟨by trivial, ?_⟩
        rw [← hflat, ht]
        simp
      · have hs : step s (Ev.writeComplete len) =
            { client := { s.client with m_write_buffer := t }
              pendingWrites := [t]
              subs := s.subs ++ [t]
              sent := s.sent } := by
          simp [step, hp, hlen, async_write_complete, hbuf,
            List.drop_left, ht, hc]
        rw [hs]
        refine ⟨?_, hc, rfl⟩
        simp only [WInv]
        exact ⟨ht, [], by simp, by simp [hflat]⟩

/-- Over a write-phase trace, the write-queue invariant is maintained,
the client stays connected, and the sent log collects exactly the
payloads of the trace. -/
lemma winv_run (evs : List Ev) : ∀ s : Sys, sendRunB s evs = true →
    s.client.m_is_connected = true → WInv s →
    WInv (run s evs) ∧ (run s evs).client.m_is_connected = true
    ∧ (run s evs).sent = s.sent ++ payloads evs := by
  induction evs with
  | nil =>
      intro s _ hc h
      exact ⟨h, hc, by simp [run, payloads]⟩
  | cons e r ih =>
      intro s hrun hc h
      cases e with
      | send b =>
          simp only [sendRunB, Bool.and_eq_true] at hrun
          obtain ⟨hb0, hrest⟩ := hrun
          have hb : b ≠ [] := by
            simp only [Bool.not_eq_true', List.isEmpty_eq_false] at hb0
            exact hb0
          obtain ⟨o1, o2, o3⟩ := winv_send s b hb hc h
          obtain ⟨g1, g2, g3⟩ := ih (step s (Ev.send b)) hrest o2 o1
          refine ⟨g1, g2, ?_⟩
          show (run (step s (Ev.send b)) r).sent = _
          rw [g3, o3, payloads, List.append_assoc]
          rfl
      | writeComplete len =>
          simp only [sendRunB, Bool.and_eq_true] at hrun
          obtain ⟨hb0, hrest⟩ := hrun
          have hpend : ∃ sub rest, s.pendingWrites = sub :: rest
              ∧ len = sub.length := by
            cases hp : s.pendingWrites with
            | nil => rw [hp] at hb0; exact absurd hb0 (by simp)
            | cons sub rest =>
                rw [hp] at hb0
                exact ⟨sub, rest, rfl, by simpa using hb0⟩
          obtain ⟨o1, o2, o3⟩ := winv_complete s len hc hpend h
          obtain ⟨g1, g2, g3⟩ := ih (step s (Ev.writeComplete len)) hrest o2 o1
          refine ⟨g1, g2, ?_⟩
          show (run (step s (Ev.writeComplete len)) r).sent = _
          rw [g3, o3, payloads]
      | connect rh dh sr ro co => exact absurd hrun (by simp [sendRunB])
      | disconnect => exact absurd hrun (by simp [sendRunB])
      | reactorDisconnect => exact absurd hrun (by simp [sendRunB])

/-- C1 counterexample: one `send([1,2])` on a connected client followed
by two drain completions each acknowledging 1 byte (each removing
exactly the first `length` acknowledged bytes from the head). The trace
ends with no drain in flight, yet the bytes submitted to the reactor
across all drain submissions are `[1,2]` then `[2]`, whose concatenation
`[1,2,2]` duplicates a byte and differs from the single sent payload
`[1,2]`. -/
theorem resubmission_duplicates_bytes_cex :
    (sys_after [Ev.connect true true 3 true true, Ev.send [1, 2],
        Ev.writeComplete 1, Ev.writeComplete 1]).pendingWrites = []
    ∧ (sys_after [Ev.connect true true 3 true true, Ev.send [1, 2],
        Ev.writeComplete 1, Ev.writeComplete 1]).sent = [[1, 2]]
    ∧ (sys_after [Ev.connect true true 3 true true, Ev.send [1, 2],
        Ev.writeComplete 1, Ev.writeComplete 1]).subs = [[1, 2], [2]]
    ∧ (sys_after [Ev.connect true true 3 true true, Ev.send [1, 2],
          Ev.writeComplete 1, Ev.writeComplete 1]).subs.flatten
        ≠ (sys_after [Ev.connect true true 3 true true, Ev.send [1, 2],
          Ev.writeComplete 1, Ev.writeComplete 1]).sent.flatten := by
  decide

/-- C1 amended: for every sequence of non-empty sends on a Connected
client interleaved with drain completions, each completion
acknowledging the full submitted length, at any point where no drain is
in flight the bytes submitted to the reactor, concatenated across all
drain submissions, equal the sent payloads concatenated in submission
order, with no interleaving, loss or duplication, including sends that
occur while a previous drain is in flight. -/
theorem send_bytes_drained_in_order (evs : List Ev) (s0 : Sys)
    (h1 : s0.client.m_is_connected = true)
    (h2 : s0.client.m_write_buffer = [])
    (h3 : s0.pendingWrites = []) (h4 : s0.subs = []) (h5 : s0.sent = [])
    (h6 : sendRunB s0 evs = true)
    (h7 : (run s0 evs).pendingWrites = []) :
    (run s0 evs).subs.flatten = (payloads evs).flatten := by
  have hW : WInv s0 := by
    simp only [WInv, h3]
    exact ⟨h2, by simp [h4, h5]⟩
  obtain ⟨g1, _, g3⟩ := winv_run evs s0 h6 h1 hW
  have g1' : (run s0 evs).client.m_write_buffer = []
      ∧ (run s0 evs).subs.flatten = (run s0 evs).sent.flatten := by
    simpa only [WInv, h7] using g1
  rw [g1'.2, g3, h5]
  simp

/-- Witness for C1's amended theorem: two sends coalesced into the
in-flight drain, with full acknowledgements. -/
theorem send_bytes_drained_in_order_witness :
    sendRunB (sys_after [Ev.connect true true 3 true true])
        [Ev.send [1, 2], Ev.send [3], Ev.writeComplete 2, Ev.writeComplete 1]
      = true
    ∧ (run (sys_after [Ev.connect true true 3 true true])
        [Ev.send [1, 2], Ev.send [3], Ev.writeComplete 2,
          Ev.writeComplete 1]).subs.flatten
      = (payloads [Ev.send [1, 2], Ev.send [3], Ev.writeComplete 2,
          Ev.writeComplete 1]).flatten :=
  ⟨by decide,
   send_bytes_drained_in_order
     [Ev.send [1, 2], Ev.send [3], Ev.writeComplete 2, Ev.writeComplete 1]
     (sys_after [Ev.connect true true 3 true true])
     (by decide) (by decide) (by decide) (by decide) (by decide) (by decide)
     (by decide)⟩

/-- The first projection of `disconnect` is always disconnected. -/
lemma tcp_disconnect_fst_not_connected (c : Client) :
    (tcp_disconnect c).1.m_is_connected = false := by
  by_cases h : c.m_is_connected
  · simp [tcp_disconnect_connected c h, (reset_state_fields c).1]
  · have hf : c.m_is_connected = false := by simpa using h
    simp [tcp_disconnect_not_connected c hf, hf]

/-- A `disconnect` step on an invariant-respecting system leaves it
disconnected with no outstanding write operations. -/
lemma step_disconnect_quiescent (s : Sys) (h : SysInv s) :
    (step s Ev.disconnect).client.m_is_connected = false
    ∧ (step s Ev.disconnect).pendingWrites = [] := by
  by_cases hc : s.client.m_is_connected
  · simp [step, tcp_disconnect_connected s.client hc,
      (reset_state_fields s.client).1]
  · have hcf : s.client.m_is_connected = false := by simpa using hc
    have hp : s.pendingWrites = [] := by
      apply List.length_eq_zero.mp
      rw [h.1]
      simp [hcf]
    simp [step, tcp_disconnect_not_connected s.client hcf, hcf, hp]

/-- C8: `disconnect()` is idempotent: on a Disconnected client it is a
no-op; after any `disconnect()` call the client is Disconnected with
empty write queue and read buffer, `send` fails with `NotConnected`,
and it keeps failing with `NotConnected` under any further events that
do not include a successful `connect`. -/
theorem disconnect_idempotent_final (evs : List Ev) :
    ((sys_after evs).client.m_is_connected = false →
        tcp_disconnect (sys_after evs).client
          = ((sys_after evs).client, false))
    ∧ tcp_disconnect (tcp_disconnect (sys_after evs).client).1
        = ((tcp_disconnect (sys_after evs).client).1, false)
    ∧ (tcp_disconnect (sys_after evs).client).1.m_is_connected = false
    ∧ (tcp_disconnect (sys_after evs).client).1.m_write_buffer = []
    ∧ (tcp_disconnect (sys_after evs).client).1.m_read_buffer = []
    ∧ (∀ b, tcp_send (tcp_disconnect (sys_after evs).client).1 b
        = { err := some SendErr.NotConnected
            client := (tcp_disconnect (sys_after evs).client).1
            submitted := none })
    ∧ (∀ evs2, noSuccConnect evs2 = true →
        (run (step (sys_after evs) Ev.disconnect) evs2).client.m_is_connected
            = false
        ∧ ∀ b, (tcp_send
            (run (step (sys_after evs) Ev.disconnect) evs2).client b).err
              = some SendErr.NotConnected) := by
  have hInv : SysInv (sys_after evs) := sysInv_run init_sys evs sysInv_init
  have hA := tcp_disconnect_fst_not_connected (sys_after evs).client
  refine ⟨fun hf => tcp_disconnect_not_connected _ hf,
    tcp_disconnect_not_connected _ hA, hA, ?_, ?_, ?_, ?_⟩
  · by_cases hc : (sys_after evs).client.m_is_connected
    · simp [tcp_disconnect_connected _ hc,
        (reset_state_fields (sys_after evs).client).2.2.1]
    · have hcf : (sys_after evs).client.m_is_connected = false := by
        simpa using hc
      simp [tcp_disconnect_not_connected _ hcf, (hInv.2 hcf).1]
  · by_cases hc : (sys_after evs).client.m_is_connected
    · simp [tcp_disconnect_connected _ hc,
        (reset_state_fields (sys_after evs).client).2.2.2]
    · have hcf : (sys_after evs).client.m_is_connected = false := by
        simpa using hc
      simp [tcp_disconnect_not_connected _ hcf, (hInv.2 hcf).2]
  · intro b
    simp [tcp_send, hA]
  · intro evs2 h2
    obtain ⟨g1, g2⟩ := step_disconnect_quiescent (sys_after evs) hInv
    obtain ⟨k1, _⟩ := disconnected_run evs2 _ g1 g2 h2
    exact ⟨k1, fun b => by simp [tcp_send, k1]⟩

/-- Witness for C8 at a concrete trace: a connect-send trace, then the
disconnect, then further sends without reconnecting. -/
theorem disconnect_idempotent_final_witness :
    tcp_disconnect
        (tcp_disconnect
          (sys_after [Ev.connect true true 3 true true, Ev.send [1]]).client).1
      = ((tcp_disconnect
          (sys_after [Ev.connect true true 3 true true, Ev.send [1]]).client).1,
        false)
    ∧ noSuccConnect [Ev.send [2], Ev.disconnect] = true
    ∧ (run (step (sys_after [Ev.connect true true 3 true true, Ev.send [1]])
          Ev.disconnect) [Ev.send [2], Ev.disconnect]).client.m_is_connected
        = false :=
  ⟨(disconnect_idempotent_final
      [Ev.connect true true 3 true true, Ev.send [1]]).2.1,
   by decide,
   ((disconnect_idempotent_final
      [Ev.connect true true 3 true true, Ev.send [1]]).2.2.2.2.2.2
      [Ev.send [2], Ev.disconnect] (by decide)).1⟩

/-- C9: calling `connect` while the client is Connected always fails
with `AlreadyConnected` and leaves the client state, and hence the
descriptor, handlers, write queue and read loop, untouched: no tracking
and no read is started by the rejected call. -/
theorem connect_while_connected_rejected (c : Client) (rh dh : Bool)
    (socketRet : Int) (resolveOk connectOk : Bool)
    (h : c.m_is_connected = true) :
    tcp_connect c rh dh socketRet resolveOk connectOk =
      { err := some ConnErr.AlreadyConnected, client := c
        tracked := false, readStarted := false } := by
  simp [tcp_connect, h]

/-- Witness for C9 at a concrete connected client. -/
theorem connect_while_connected_rejected_witness :
    demo_client.m_is_connected = true
    ∧ tcp_connect demo_client true true 7 true true =
        { err := some ConnErr.AlreadyConnected, client := demo_client
          tracked := false, readStarted := false } :=
  ⟨by decide,
   connect_while_connected_rejected demo_client true true 7 true true
     (by decide)⟩

/-- C10: `send` checks the connection state before the payload-emptiness
check, so an empty send on a Disconnected client throws `NotConnected`,
while on a Connected client it is a silent no-op that leaves the queue
unchanged and submits nothing. -/
theorem send_empty_payload_check_order (c : Client) :
    (c.m_is_connected = false →
      tcp_send c [] =
        { err := some SendErr.NotConnected, client := c, submitted := none })
    ∧ (c.m_is_connected = true →
      tcp_send c [] = { err := none, client := c, submitted := none }) := by
  constructor <;> intro h <;> simp [tcp_send, h]

/-- Witness for C10 at concrete disconnected and connected clients. -/
theorem send_empty_payload_check_order_witness :
    tcp_send init_client [] =
      { err := some SendErr.NotConnected, client := init_client
        submitted := none }
    ∧ tcp_send demo_client [] =
      { err := none, client := demo_client, submitted := none } :=
  ⟨(send_empty_payload_check_order init_client).1 (by decide),
   (send_empty_payload_check_order demo_client).2 (by decide)⟩

/-- C3 (code bug): in the source, `if (m_receive_handler)` guards only
the log statement, so on a read completion with no registered receive
handler the callback still evaluates `m_receive_handler(*this, ...)`,
which throws `std::bad_function_call` instead of skipping the handler,
clearing the read buffer and issuing another read. Evaluated here at a
connected client whose receive handler is null. -/
theorem read_completion_null_handler_throws :
    async_read_complete
      { m_fd := 4, m_is_connected := true, m_receive_handler := false
        m_disconnection_handler := true, m_write_buffer := []
        m_read_buffer := [] } 0 true
      = Except.error ReadErr.BadFunctionCall := by
  rfl

/-- C4 (code bug): when `connect` fails after socket creation (here:
host resolution fails with descriptor 5 already created), the client
stays Disconnected with handlers unchanged and no read started, but the
created descriptor is never closed and `m_fd` keeps the leaked
descriptor instead of the absent sentinel `-1`. -/
theorem connect_failure_leaks_descriptor :
    (tcp_connect init_client true true 5 false true).err
        = some ConnErr.HostResolutionFailed
    ∧ (tcp_connect init_client true true 5 false true).client.m_is_connected
        = false
    ∧ (tcp_connect init_client true true 5 false true).client.m_receive_handler
        = init_client.m_receive_handler
    ∧ (tcp_connect init_client true true 5 false true).client.m_disconnection_handler
        = init_client.m_disconnection_handler
    ∧ (tcp_connect init_client true true 5 false true).readStarted = false
    ∧ (tcp_connect init_client true true 5 false true).client.m_fd = 5 := by
  decide

/-- C5 counterexample: after a full local disconnect of a connected
client with both handlers registered, the handlers are still present,
refuting that they are cleared on full disconnect. -/
theorem disconnect_clears_handlers_cex :
    ¬((tcp_disconnect demo_client).1.m_receive_handler = false
      ∧ (tcp_disconnect demo_client).1.m_disconnection_handler = false) := by
  decide

/-- C5 amended: a full disconnect (local `disconnect()` or the
reactor-path `reset_state`) resets the connection state, descriptor and
buffers, but leaves both stored handlers unchanged: they are not
cleared, persisting until overwritten by the next `connect`. -/
theorem disconnect_keeps_handlers (c : Client) :
    (reset_state c).m_receive_handler = c.m_receive_handler
    ∧ (reset_state c).m_disconnection_handler = c.m_disconnection_handler
    ∧ (tcp_disconnect c).1.m_receive_handler = c.m_receive_handler
    ∧ (tcp_disconnect c).1.m_disconnection_handler = c.m_disconnection_handler
    ∧ (c.m_is_connected = true →
        (tcp_disconnect c).1.m_is_connected = false
        ∧ (tcp_disconnect c).1.m_fd = -1
        ∧ (tcp_disconnect c).1.m_write_buffer = []
        ∧ (tcp_disconnect c).1.m_read_buffer = []) := by
  refine ⟨(reset_state_handlers c).1, (reset_state_handlers c).2, ?_, ?_, ?_⟩
  · unfold tcp_disconnect
    split
    · exact (reset_state_handlers c).1
    · rfl
  · unfold tcp_disconnect
    split
    · exact (reset_state_handlers c).2
    · rfl
  · intro h
    unfold tcp_disconnect
    simp only [h, if_true]
    exact ⟨(reset_state_fields c).1, (reset_state_fields c).2.1,
      (reset_state_fields c).2.2.1, (reset_state_fields c).2.2.2⟩

/-- Witness for C5's amended theorem at a concrete connected client. -/
theorem disconnect_keeps_handlers_witness :
    demo_client.m_is_connected = true
    ∧ (tcp_disconnect demo_client).1.m_receive_handler
        = demo_client.m_receive_handler
    ∧ (tcp_disconnect demo_client).1.m_is_connected = false :=
  ⟨by decide, (disconnect_keeps_handlers demo_client).2.2.1,
   ((disconnect_keeps_handlers demo_client).2.2.2.2 (by decide)).1⟩

/-- C6: when the reactor invokes the registered failure callback on a
Connected client with a registered disconnection handler, the client
first completes the full reset (Disconnected, descriptor `-1`, both
buffers empty) and only then invokes the disconnection handler, exactly
once, with the already-reset client state. -/
theorem reactor_disconnection_resets_then_notifies (c : Client)
    (h1 : c.m_is_connected = true) (h2 : c.m_disconnection_handler = true) :
    io_service_disconnection_handler c = (reset_state c, some (reset_state c))
    ∧ (reset_state c).m_is_connected = false
    ∧ (reset_state c).m_fd = -1
    ∧ (reset_state c).m_write_buffer = []
    ∧ (reset_state c).m_read_buffer = [] := by
  refine ⟨?_, reset_state_fields c⟩
  unfold io_service_disconnection_handler
  simp only [(reset_state_handlers c).2, h2, if_true]

/-- Witness for C6 at a concrete connected client. -/
theorem reactor_disconnection_resets_then_notifies_witness :
    demo_client.m_is_connected = true
    ∧ demo_client.m_disconnection_handler = true
    ∧ io_service_disconnection_handler demo_client
        = (reset_state demo_client, some (reset_state demo_client)) :=
  ⟨by decide, by decide,
   (reactor_disconnection_resets_then_notifies demo_client
     (by decide) (by decide)).1⟩

/-- C7: when the registered receive handler vetoes (returns false) on a
received chunk of a connected client, the completion callback calls the
disconnect routine exactly once, issues no further read request, and
does not invoke the disconnection handler. -/
theorem receive_handler_veto_disconnects_once (c : Client) (len : Nat)
    (h1 : c.m_is_connected = true) (h2 : c.m_receive_handler = true) :
    async_read_complete c len false = Except.ok
      { client := reset_state c
        handlerCalled := true
        handlerArg := c.m_read_buffer.take len
        disconnectCalls := 1
        dhInvoked := false
        readAgain := false } := by
  simp [async_read_complete, h2, tcp_disconnect, h1]

/-- Witness for C7 at a concrete connected client. -/
theorem receive_handler_veto_disconnects_once_witness :
    demo_client.m_is_connected = true
    ∧ demo_client.m_receive_handler = true
    ∧ async_read_complete demo_client 2 false = Except.ok
      { client := reset_state demo_client
        handlerCalled := true
        handlerArg := demo_client.m_read_buffer.take 2
        disconnectCalls := 1
        dhInvoked := false
        readAgain := false } :=
  ⟨by decide, by decide,
   receive_handler_veto_disconnects_once demo_client 2 (by decide) (by decide)⟩

end CppRedis
